import Mathlib

/-!
# Verification of the tlog event-sourcing core (src/tlog.py)

Shallow embedding of the event-sourcing and dependency-resolution engine of
`tlog.py`: the event record shape, the replay function `compute_state`, the
ready computation `get_ready_tasks`, the graph projection
`build_dependency_graph`, the event loader `load_all_events`, and the write
command validation layer (`cmd_done`, `cmd_update`).

Modelling conventions:

* Python events are flat JSON dictionaries.  We embed them as a structure with
  one field per key the source ever reads; a field value `none` models an
  absent key (the source reads fields with `event.get(k)` / `event.get(k, d)`,
  which treats an absent key as `None` resp. the default `d`).  Field values,
  when present, are well-typed according to the record schema: strings for
  `title`/`notes`/`status`/`action` and ids, lists of strings for
  `deps`/`blocks`/`labels`.
* The JSON key `"blocks"` holds a list of ids on `create` events
  (read as `event.get("blocks", [])`) but a single id on `block` events
  (read as `event.get("blocks")`).  We embed the two readings as two fields,
  `blocks` (list form) and `blocksRef` (single-id form); the `type` field
  decides which one a replay branch reads, exactly as in the source.
* Id-valued slots inside a task are `Option String`: `event.get("id")` or
  `event.get("dep")` on an event missing that key yields Python `None`, which
  the source happily stores in the task map or appends to a `deps` list.
* The Python task dictionary is insertion-ordered; we embed it as an
  association list `List (Option String × Task)` with Python `dict`
  assignment semantics (`dictSet`): assignment to an existing key replaces
  the value in place, assignment to a fresh key appends at the end, and
  `tasks.values()` iterates in that order.
* A task's `completed` key is absent until a `status` event with status
  `"done"` stores that event's `ts` there; we embed the key as
  `completed : Option String` with `none` for "absent".  (A done event whose
  own `ts` key is absent would store Python `None`; that state is conflated
  with "absent", which is observationally equivalent everywhere the source
  reads `completed`.)
* Filesystem access and JSON text parsing are out of scope (spec §1); the
  loader is parameterised by the list of partition files (name × lines) and
  by a line parser `String → Option Event`, where `none` models a
  `json.JSONDecodeError`.  Command-layer rendering of success documents is
  likewise out of scope; a command returns the (possibly extended) event log
  together with `Except.ok ()` or `Except.error kind` for the error document
  kind emitted with non-zero exit.
-/

namespace Tlog

/-- Event type discriminators, as in the source constants. -/
def EVENT_CREATE : String := "create"

def EVENT_STATUS : String := "status"

def EVENT_DEP : String := "dep"

def EVENT_BLOCK : String := "block"

def EVENT_UPDATE : String := "update"

/-- One log record (a flat JSON dictionary); `none` = key absent. -/
structure Event where
  id : Option String := none
  ts : Option String := none
  type_ : Option String := none
  title : Option String := none
  status : Option String := none
  deps : Option (List String) := none
  blocks : Option (List String) := none
  blocksRef : Option String := none
  dep : Option String := none
  action : Option String := none
  labels : Option (List String) := none
  notes : Option String := none
  deriving Repr, DecidableEq

/-- A task snapshot as built by replay (the dictionary stored in `tasks`). -/
structure Task where
  id : Option String
  title : String
  status : Option String
  deps : List (Option String)
  blocks : List (Option String)
  created : Option String
  updated : Option String
  labels : List String
  notes : String
  completed : Option String := none
  deriving Repr, DecidableEq

/-- The replay accumulator: Python's insertion-ordered `dict` of task id to
task, as an association list. -/
abbrev TaskMap := List (Option String × Task)

/-- `tasks.get(k)` / `tasks[k]`: first (and in well-formed maps only) entry
with the given key. -/
def dictGet : TaskMap → Option String → Option Task
  | [], _ => none
  | p :: rest, k => if p.1 = k then some p.2 else dictGet rest k

/-- `k in tasks`. -/
def dictContains (m : TaskMap) (k : Option String) : Bool :=
  (dictGet m k).isSome

/-- `tasks[k] = v`: replace in place if the key exists (keeping its
position), append otherwise — Python dict assignment. -/
def dictSet (m : TaskMap) (k : Option String) (v : Task) : TaskMap :=
  if dictContains m k then m.map (fun p => if p.1 = k then (k, v) else p)
  else m ++ [(k, v)]

/-- `tasks.values()` in insertion order. -/
def values (m : TaskMap) : List Task := m.map Prod.snd

/-- The fresh task record built by the `create` branch of `compute_state`
(the id-list fields of the event hold genuine strings, injected into the
task's `Option String` id slots with `some`). -/
def taskOfCreate (e : Event) : Task :=
  { id := e.id
    title := e.title.getD ""
    status := some (e.status.getD "open")
    deps := (e.deps.getD []).map some
    blocks := (e.blocks.getD []).map some
    created := e.ts
    updated := e.ts
    labels := e.labels.getD []
    notes := e.notes.getD ""
    completed := none }

/-- One iteration of the replay loop in `compute_state`: dispatch on the
event's `type` field; every branch other than `create` requires
`task_id in tasks` and is a no-op otherwise. -/
def applyEvent (tasks : TaskMap) (e : Event) : TaskMap :=
  if e.type_ = some EVENT_CREATE then
    dictSet tasks e.id (taskOfCreate e)
  else if e.type_ = some EVENT_STATUS then
    match dictGet tasks e.id with
    | none => tasks
    | some t =>
      dictSet tasks e.id
        { t with
          status := e.status
          updated := e.ts
          completed := if e.status = some "done" then e.ts else t.completed }
  else if e.type_ = some EVENT_DEP then
    match dictGet tasks e.id with
    | none => tasks
    | some t =>
      let action := e.action.getD "add"
      let deps :=
        if action = "add" ∧ e.dep ∉ t.deps then t.deps ++ [e.dep]
        else if action = "remove" ∧ e.dep ∈ t.deps then t.deps.erase e.dep
        else t.deps
      dictSet tasks e.id { t with deps := deps, updated := e.ts }
  else if e.type_ = some EVENT_BLOCK then
    match dictGet tasks e.id with
    | none => tasks
    | some t =>
      let action := e.action.getD "add"
      let blocks :=
        if action = "add" ∧ e.blocksRef ∉ t.blocks then t.blocks ++ [e.blocksRef]
        else if action = "remove" ∧ e.blocksRef ∈ t.blocks then t.blocks.erase e.blocksRef
        else t.blocks
      dictSet tasks e.id { t with blocks := blocks, updated := e.ts }
  else if e.type_ = some EVENT_UPDATE then
    match dictGet tasks e.id with
    | none => tasks
    | some t =>
      dictSet tasks e.id
        { t with
          title := match e.title with | some s => s | none => t.title
          notes := match e.notes with | some s => s | none => t.notes
          labels := match e.labels with | some ls => ls | none => t.labels
          updated := e.ts }
  else tasks

/-- `compute_state`: replay events in order into a task map. -/
def compute_state (events : List Event) : TaskMap :=
  events.foldl applyEvent []

/-- The per-dependency test of the inner loop of `get_ready_tasks`:
`dep_task = tasks.get(dep_id); not (not dep_task or dep_task["status"] != "done")`. -/
def depSatisfied (tasks : TaskMap) (dep_id : Option String) : Bool :=
  match dictGet tasks dep_id with
  | none => false
  | some dep_task => dep_task.status == some "done"

/-- `deps_satisfied` after the first inner loop of `get_ready_tasks`. -/
def depsSatisfied (tasks : TaskMap) (task : Task) : Bool :=
  task.deps.all (depSatisfied tasks)

/-- `blocked` after the second inner loop of `get_ready_tasks`: some task in
the map (the task itself not excluded) names this task in `blocks` and is
not done. -/
def isBlocked (tasks : TaskMap) (task : Task) : Bool :=
  (values tasks).any (fun other =>
    other.blocks.contains task.id && other.status != some "done")

/-- `get_ready_tasks`: open tasks whose deps are all done and which no
not-done task (itself included) blocks, in task-map order. -/
def get_ready_tasks (tasks : TaskMap) : List Task :=
  (values tasks).filter (fun task =>
    task.status == some "open" && depsSatisfied tasks task && !isBlocked tasks task)

/-- A node of `build_dependency_graph` (the JSON keys `id`, `title`,
`status`). -/
structure GNode where
  id : Option String
  title : String
  status : Option String
  deriving Repr, DecidableEq

/-- An edge of `build_dependency_graph`; `from_`, `to_`, `etype` embed the JSON
keys `from`, `to`, `type`. -/
structure GEdge where
  from_ : Option String
  to_ : Option String
  etype : String
  deriving Repr, DecidableEq

/-- The node/edge pair returned by `build_dependency_graph`. -/
structure Graph where
  nodes : List GNode
  edges : List GEdge
  deriving Repr, DecidableEq

/-- The per-task body of the loop in `build_dependency_graph`: push the
task's node, then one `depends_on` edge per `deps` entry (dependency →
dependent), then one `blocks` edge per `blocks` entry (task → blocked
target). -/
def graphStep (acc : List GNode × List GEdge) (task : Task) :
    List GNode × List GEdge :=
  (acc.1 ++ [{ id := task.id, title := task.title, status := task.status }],
   acc.2
     ++ task.deps.map (fun dep_id => { from_ := dep_id, to_ := task.id, etype := "depends_on" })
     ++ task.blocks.map (fun block_id => { from_ := task.id, to_ := block_id, etype := "blocks" }))

/-- `build_dependency_graph`: accumulate nodes and edges over
`tasks.values()`. -/
def build_dependency_graph (tasks : TaskMap) : Graph :=
  let r := (values tasks).foldl graphStep ([], [])
  { nodes := r.1, edges := r.2 }

/-- The per-file inner loop of `load_all_events`: strip each line, skip
blank lines, parse the rest, and drop lines the parser rejects
(`json.JSONDecodeError` → `continue`). -/
def parseLines (parse : String → Option Event) (lines : List String) : List Event :=
  lines.filterMap (fun raw =>
    let line := raw.trim
    if line = "" then none else parse line)

/-- Sort key of the final `sorted` call: `e.get("ts", "")`. -/
def tsKey (e : Event) : String := e.ts.getD ""

/-- Python's `sorted(l, key=...)` with a string-valued key: a stable sort.
Insertion sort with the reflexive comparison `key a ≤ key b` is stable (an
element is inserted before the first strictly greater key, hence after all
earlier elements with an equal key); stability is proved below. -/
def pySorted {α : Type} (key : α → String) (l : List α) : List α :=
  List.insertionSort (fun a b => key a ≤ key b) l

/-- `load_all_events`, parameterised by the line parser and the partition
files (name × lines): iterate the partition files in sorted (lexicographic)
name order, collect the successfully parsed lines, and return them sorted by
the `ts` key. -/
def load_all_events (parse : String → Option Event)
    (files : List (String × List String)) : List Event :=
  let ordered := pySorted (fun f => f.1) files
  let events := ordered.flatMap (fun f => parseLines parse f.2)
  pySorted tsKey events

/-- Python truthiness of an optional string argument (`if args.title:`):
present and non-empty. -/
def truthyStr : Option String → Bool
  | none => false
  | some s => !s.isEmpty

/-- Python truthiness of an optional list argument (`if args.label:`):
present and non-empty. -/
def truthyList : Option (List String) → Bool
  | none => false
  | some l => !l.isEmpty

/-- `cmd_done`: replay the log, error with `not_found` (no append) when the
id is not in the reconstructed state, otherwise append one `status`/`done`
event.  The returned list is the log after the command; rendering of the
success document is out of scope (spec §1). -/
def cmd_done (log : List Event) (id ts : String) :
    List Event × Except String Unit :=
  let tasks := compute_state log
  if dictContains tasks (some id) then
    (log ++ [{ id := some id, ts := some ts, type_ := some EVENT_STATUS,
               status := some "done" }],
     Except.ok ())
  else (log, Except.error "not_found")

/-- `cmd_update`: replay the log; error with `not_found` (no append) when the
id is unknown; build the `update` event from the truthy arguments; error with
`no_changes` (no append) when none of title/notes/labels was supplied
(`len(event) <= 3`); otherwise append the event. -/
def cmd_update (log : List Event) (id ts : String)
    (title notes : Option String) (labels : Option (List String)) :
    List Event × Except String Unit :=
  let tasks := compute_state log
  if dictContains tasks (some id) then
    let event : Event :=
      { id := some id, ts := some ts, type_ := some EVENT_UPDATE,
        title := if truthyStr title then title else none,
        notes := if truthyStr notes then notes else none,
        labels := if truthyList labels then labels else none }
    if truthyStr title || truthyStr notes || truthyList labels then
      (log ++ [event], Except.ok ())
    else (log, Except.error "no_changes")
  else (log, Except.error "not_found")

/-- The ready predicate exactly as claim C1 words it (second, spec-side
definition, for comparison with `get_ready_tasks`): status open; every dep
resolves to an existing done task; and no *other* task `u` — distinct from
`t` — has `t.id` in `u.blocks` while not done.  The last conjunct is where it
differs from the source, which does not exclude the task itself. -/
def claimReady (m : TaskMap) (t : Task) : Bool :=
  t.status == some "open" &&
  t.deps.all (fun d =>
    match dictGet m d with
    | none => false
    | some u => u.status == some "done") &&
  (values m).all (fun u =>
    u == t || !(u.blocks.contains t.id && u.status != some "done"))

/-- C1 counterexample input: a single `create` event whose task names itself
in `blocks` (reachable via `tlog block X --blocks X`). -/
def selfBlockEvent : Event :=
  { id := some "a", ts := some "t0", type_ := some EVENT_CREATE,
    title := some "self", blocks := some ["a"] }

/-- The task `compute_state [selfBlockEvent]` stores under id `"a"`. -/
def selfBlockTask : Task :=
  { id := some "a", title := "self", status := some "open", deps := [],
    blocks := [some "a"], created := some "t0", updated := some "t0",
    labels := [], notes := "", completed := none }

/-- C2 counterexample input: one create followed by two `done` status events
with distinct timestamps. -/
def c2Events : List Event :=
  [{ id := some "a", ts := some "s0", type_ := some EVENT_CREATE, title := some "x" },
   { id := some "a", ts := some "t1", type_ := some EVENT_STATUS, status := some "done" },
   { id := some "a", ts := some "t2", type_ := some EVENT_STATUS, status := some "done" }]

/-- Concrete create event for witnesses. -/
def doneWitnessCreate : Event :=
  { id := some "a", ts := some "s0", type_ := some EVENT_CREATE, title := some "w" }

/-- Concrete `done` status event for witnesses. -/
def doneWitnessStatus : Event :=
  { id := some "a", ts := some "t9", type_ := some EVENT_STATUS, status := some "done" }

/-- Concrete create for the reopen witness. -/
def reopenCreate : Event :=
  { id := some "r", ts := some "s0", type_ := some EVENT_CREATE, title := some "r" }

/-- Concrete `done` status event for the reopen witness. -/
def reopenDone : Event :=
  { id := some "r", ts := some "t1", type_ := some EVENT_STATUS, status := some "done" }

/-- Concrete reopening `open` status event for the reopen witness. -/
def reopenOpen : Event :=
  { id := some "r", ts := some "t2", type_ := some EVENT_STATUS, status := some "open" }

/-- C10 scenario: a create event carrying an explicit `"status": "done"`. -/
def c10CreateDone : Event :=
  { id := some "a", ts := some "s1", type_ := some EVENT_CREATE, title := some "A",
    status := some "done" }

/-- C10 scenario: a second task depending on the done-at-birth task. -/
def c10CreateDep : Event :=
  { id := some "b", ts := some "s2", type_ := some EVENT_CREATE, title := some "B",
    deps := some ["a"] }

/-- Concrete create event used by the C4 witness map. -/
def c4WCreate : Event :=
  { id := some "a", ts := some "s0", type_ := some EVENT_CREATE, title := some "w" }

/-- Concrete one-task map for the C4 witness. -/
def c4Map : TaskMap := compute_state [c4WCreate]

/-- The task stored in `c4Map`. -/
def c4WTask : Task := taskOfCreate c4WCreate

/-- Concrete dep-add event for the C4 witness. -/
def c4DepAdd : Event :=
  { id := some "a", ts := some "u1", type_ := some EVENT_DEP, dep := some "x",
    action := some "add" }

/-- Concrete dep-remove event (absent dep) for the C4 witness. -/
def c4DepRemove : Event :=
  { id := some "a", ts := some "u2", type_ := some EVENT_DEP, dep := some "y",
    action := some "remove" }

/-- Concrete block-add event for the C4 witness. -/
def c4BlockAdd : Event :=
  { id := some "a", ts := some "u3", type_ := some EVENT_BLOCK, blocksRef := some "x",
    action := some "add" }

/-- Concrete block-remove event (absent target) for the C4 witness. -/
def c4BlockRemove : Event :=
  { id := some "a", ts := some "u4", type_ := some EVENT_BLOCK, blocksRef := some "y",
    action := some "remove" }

/-- Concrete create event for the C7 witness log. -/
def c7Create : Event :=
  { id := some "a", ts := some "s0", type_ := some EVENT_CREATE, title := some "w" }

/-- First create event for the C8 witness. -/
def c8First : Event :=
  { id := some "a", ts := some "s0", type_ := some EVENT_CREATE, title := some "old",
    notes := some "n1", labels := some ["l1"] }

/-- Second create event with the same id for the C8 witness. -/
def c8Second : Event :=
  { id := some "a", ts := some "s5", type_ := some EVENT_CREATE, title := some "new",
    deps := some ["d"] }

/-! ## Association-list (Python dict) lemmas -/

theorem dictGet_append (m l : TaskMap) (k : Option String) :
    dictGet (m ++ l) k = (dictGet m k).or (dictGet l k) := by
  induction m with
  | nil => simp [dictGet]
  | cons p rest ih =>
    by_cases hp : p.1 = k
    · simp [dictGet, hp]
    · simp [dictGet, hp, ih]

theorem dictGet_map_ne (m : TaskMap) (k k' : Option String) (v : Task)
    (h : k' ≠ k) :
    dictGet (m.map (fun p => if p.1 = k then (k, v) else p)) k' = dictGet m k' := by
  induction m with
  | nil => simp [dictGet]
  | cons p rest ih =>
    by_cases hp : p.1 = k
    · have hk : k ≠ k' := fun hkk => h hkk.symm
      simp [dictGet, hp, hk, ih]
    · simp only [List.map_cons, if_neg hp]
      by_cases hp' : p.1 = k'
      · simp [dictGet, hp']
      · simp [dictGet, hp', ih]

theorem dictGet_dictSet_self (m : TaskMap) (k : Option String) (v : Task) :
    dictGet (dictSet m k v) k = some v := by
  unfold dictSet
  by_cases h : dictContains m k = true
  · rw [if_pos h]
    unfold dictContains at h
    induction m with
    | nil => simp [dictGet] at h
    | cons p rest ih =>
      by_cases hp : p.1 = k
      · simp [dictGet, hp]
      · simp only [dictGet, if_neg hp] at h
        simp [dictGet, hp, ih h]
  · rw [if_neg h]
    unfold dictContains at h
    have hm : dictGet m k = none := by
      cases hg : dictGet m k with
      | none => rfl
      | some t => rw [hg] at h; simp at h
    rw [dictGet_append, hm]
    simp [dictGet]

theorem dictGet_dictSet_ne (m : TaskMap) (k k' : Option String) (v : Task)
    (h : k' ≠ k) :
    dictGet (dictSet m k v) k' = dictGet m k' := by
  unfold dictSet
  by_cases hc : dictContains m k = true
  · rw [if_pos hc, dictGet_map_ne m k k' v h]
  · rw [if_neg hc, dictGet_append]
    have : dictGet [(k, v)] k' = none := by
      unfold dictGet
      rw [if_neg (Ne.symm h)]
      rfl
    rw [this]
    cases dictGet m k' <;> rfl

theorem length_dictSet_of_contains (m : TaskMap) (k : Option String) (v : Task)
    (h : dictContains m k = true) :
    (dictSet m k v).length = m.length := by
  unfold dictSet
  rw [if_pos h, List.length_map]

theorem dictContains_iff (m : TaskMap) (k : Option String) :
    dictContains m k = true ↔ ∃ t, dictGet m k = some t := by
  simp [dictContains, Option.isSome_iff_exists]

/-! ## Replay branch lemmas -/

theorem applyEvent_create (tasks : TaskMap) (e : Event)
    (h : e.type_ = some EVENT_CREATE) :
    applyEvent tasks e = dictSet tasks e.id (taskOfCreate e) := by
  unfold applyEvent
  rw [h, if_pos rfl]

theorem applyEvent_status (tasks : TaskMap) (e : Event)
    (h : e.type_ = some EVENT_STATUS) :
    applyEvent tasks e =
      match dictGet tasks e.id with
      | none => tasks
      | some t =>
        dictSet tasks e.id
          { t with
            status := e.status
            updated := e.ts
            completed := if e.status = some "done" then e.ts else t.completed } := by
  unfold applyEvent
  rw [h, if_neg (by decide : ¬(some EVENT_STATUS = some EVENT_CREATE)), if_pos rfl]

theorem applyEvent_dep (tasks : TaskMap) (e : Event)
    (h : e.type_ = some EVENT_DEP) :
    applyEvent tasks e =
      match dictGet tasks e.id with
      | none => tasks
      | some t =>
        let action := e.action.getD "add"
        let deps :=
          if action = "add" ∧ e.dep ∉ t.deps then t.deps ++ [e.dep]
          else if action = "remove" ∧ e.dep ∈ t.deps then t.deps.erase e.dep
          else t.deps
        dictSet tasks e.id { t with deps := deps, updated := e.ts } := by
  unfold applyEvent
  rw [h, if_neg (by decide : ¬(some EVENT_DEP = some EVENT_CREATE)),
    if_neg (by decide : ¬(some EVENT_DEP = some EVENT_STATUS)), if_pos rfl]

theorem applyEvent_block (tasks : TaskMap) (e : Event)
    (h : e.type_ = some EVENT_BLOCK) :
    applyEvent tasks e =
      match dictGet tasks e.id with
      | none => tasks
      | some t =>
        let action := e.action.getD "add"
        let blocks :=
          if action = "add" ∧ e.blocksRef ∉ t.blocks then t.blocks ++ [e.blocksRef]
          else if action = "remove" ∧ e.blocksRef ∈ t.blocks then t.blocks.erase e.blocksRef
          else t.blocks
        dictSet tasks e.id { t with blocks := blocks, updated := e.ts } := by
  unfold applyEvent
  rw [h, if_neg (by decide : ¬(some EVENT_BLOCK = some EVENT_CREATE)),
    if_neg (by decide : ¬(some EVENT_BLOCK = some EVENT_STATUS)),
    if_neg (by decide : ¬(some EVENT_BLOCK = some EVENT_DEP)), if_pos rfl]

theorem applyEvent_update (tasks : TaskMap) (e : Event)
    (h : e.type_ = some EVENT_UPDATE) :
    applyEvent tasks e =
      match dictGet tasks e.id with
      | none => tasks
      | some t =>
        dictSet tasks e.id
          { t with
            title := match e.title with | some s => s | none => t.title
            notes := match e.notes with | some s => s | none => t.notes
            labels := match e.labels with | some ls => ls | none => t.labels
            updated := e.ts } := by
  unfold applyEvent
  rw [h, if_neg (by decide : ¬(some EVENT_UPDATE = some EVENT_CREATE)),
    if_neg (by decide : ¬(some EVENT_UPDATE = some EVENT_STATUS)),
    if_neg (by decide : ¬(some EVENT_UPDATE = some EVENT_DEP)),
    if_neg (by decide : ¬(some EVENT_UPDATE = some EVENT_BLOCK)), if_pos rfl]

theorem compute_state_append (evs : List Event) (e : Event) :
    compute_state (evs ++ [e]) = applyEvent (compute_state evs) e := by
  simp [compute_state, List.foldl_append]

theorem applyEvent_status_some (tasks : TaskMap) (e : Event) (t : Task)
    (h : e.type_ = some EVENT_STATUS) (hget : dictGet tasks e.id = some t) :
    applyEvent tasks e =
      dictSet tasks e.id
        { t with
          status := e.status
          updated := e.ts
          completed := if e.status = some "done" then e.ts else t.completed } := by
  rw [applyEvent_status tasks e h, hget]

theorem applyEvent_dep_some (tasks : TaskMap) (e : Event) (t : Task)
    (h : e.type_ = some EVENT_DEP) (hget : dictGet tasks e.id = some t) :
    applyEvent tasks e =
      dictSet tasks e.id
        { t with
          deps :=
            if e.action.getD "add" = "add" ∧ e.dep ∉ t.deps then t.deps ++ [e.dep]
            else if e.action.getD "add" = "remove" ∧ e.dep ∈ t.deps then t.deps.erase e.dep
            else t.deps
          updated := e.ts } := by
  rw [applyEvent_dep tasks e h, hget]

theorem applyEvent_block_some (tasks : TaskMap) (e : Event) (t : Task)
    (h : e.type_ = some EVENT_BLOCK) (hget : dictGet tasks e.id = some t) :
    applyEvent tasks e =
      dictSet tasks e.id
        { t with
          blocks :=
            if e.action.getD "add" = "add" ∧ e.blocksRef ∉ t.blocks then t.blocks ++ [e.blocksRef]
            else if e.action.getD "add" = "remove" ∧ e.blocksRef ∈ t.blocks then t.blocks.erase e.blocksRef
            else t.blocks
          updated := e.ts } := by
  rw [applyEvent_block tasks e h, hget]

/-! ## Ready-computation characterization -/

theorem depSatisfied_iff (m : TaskMap) (d : Option String) :
    depSatisfied m d = true ↔ ∃ u, dictGet m d = some u ∧ u.status = some "done" := by
  unfold depSatisfied
  cases h : dictGet m d with
  | none => simp
  | some u => simp [beq_iff_eq]

theorem mem_get_ready_tasks (m : TaskMap) (t : Task) :
    t ∈ get_ready_tasks m ↔
      t ∈ values m ∧ t.status = some "open" ∧
      (∀ d ∈ t.deps, ∃ u, dictGet m d = some u ∧ u.status = some "done") ∧
      ¬ ∃ u, u ∈ values m ∧ t.id ∈ u.blocks ∧ u.status ≠ some "done" := by
  unfold get_ready_tasks
  rw [List.mem_filter]
  simp only [Bool.and_eq_true, beq_iff_eq, Bool.not_eq_true]
  constructor
  · rintro ⟨hmem, ⟨⟨hstat, hdeps⟩, hblk⟩⟩
    refine ⟨hmem, hstat, ?_, ?_⟩
    · intro d hd
      rw [← depSatisfied_iff]
      exact List.all_eq_true.mp hdeps d hd
    · rintro ⟨u, humem, hub, hust⟩
      have : isBlocked m t = true := by
        unfold isBlocked
        rw [List.any_eq_true]
        refine ⟨u, humem, ?_⟩
        rw [Bool.and_eq_true, List.elem_iff]
        exact ⟨hub, by simp [bne_iff_ne, hust]⟩
      rw [this] at hblk
      exact Bool.true_eq_false.mp hblk.symm
  · rintro ⟨hmem, hstat, hdeps, hblk⟩
    refine ⟨hmem, ⟨⟨hstat, ?_⟩, ?_⟩⟩
    · rw [depsSatisfied, List.all_eq_true]
      intro d hd
      rw [depSatisfied_iff]
      exact hdeps d hd
    · cases hb : isBlocked m t with
      | false => rfl
      | true =>
        exfalso
        apply hblk
        unfold isBlocked at hb
        rw [List.any_eq_true] at hb
        obtain ⟨u, humem, hu⟩ := hb
        rw [Bool.and_eq_true, List.elem_iff] at hu
        exact ⟨u, humem, hu.1, by simpa [bne_iff_ne] using hu.2⟩

/-! ## Claim theorems -/

/-- C1 (amended): on every task map produced by replay, `get_ready_tasks`
returns exactly those tasks `t` such that `t.status` is `"open"`, every id in
`t.deps` resolves to an existing task with status `"done"` (a dangling dep
fails closed), and no task `u` — **the task itself included, not only tasks
distinct from `t`** — has `t.id` in `u.blocks` while `u.status ≠ "done"`. -/
theorem c1_ready_characterization (evs : List Event) (t : Task) :
    t ∈ get_ready_tasks (compute_state evs) ↔
      t ∈ values (compute_state evs) ∧ t.status = some "open" ∧
      (∀ d ∈ t.deps, ∃ u, dictGet (compute_state evs) d = some u ∧
        u.status = some "done") ∧
      ¬ ∃ u, u ∈ values (compute_state evs) ∧ t.id ∈ u.blocks ∧
        u.status ≠ some "done" :=
  mem_get_ready_tasks (compute_state evs) t

/-- C1 counterexample: a task that names itself in `blocks` (reachable via
`tlog block X --blocks X`).  It satisfies the claim's ready predicate
(`claimReady`, which exempts the task itself from the blocker check) yet
`get_ready_tasks` does not return it, because the source's blocker loop
iterates over *all* tasks, the task itself included. -/
theorem c1_counterexample :
    dictGet (compute_state [selfBlockEvent]) (some "a") = some selfBlockTask ∧
    claimReady (compute_state [selfBlockEvent]) selfBlockTask = true ∧
    selfBlockTask ∉ get_ready_tasks (compute_state [selfBlockEvent]) := by
  refine ⟨by decide, by decide, by decide⟩

/-- C2 (amended): a task's `completed` timestamp is written on **every**
status event that sets `"done"`, not only the first: replaying any log
extended with a `done` status event for a known id leaves `completed` equal
to that last event's timestamp, overwriting any earlier completion
timestamp. -/
theorem c2_completed_is_last_done (evs : List Event) (e : Event) (t : Task)
    (h1 : e.type_ = some EVENT_STATUS) (h2 : e.status = some "done")
    (hget : dictGet (compute_state evs) e.id = some t) :
    (dictGet (compute_state (evs ++ [e])) e.id).map Task.completed = some e.ts := by
  rw [compute_state_append, applyEvent_status_some _ e t h1 hget,
    dictGet_dictSet_self]
  simp [h2]

/-- C2 witness: the amended theorem applied to a one-create log and a
concrete `done` event. -/
theorem c2_witness :
    (dictGet (compute_state ([doneWitnessCreate] ++ [doneWitnessStatus]))
      doneWitnessStatus.id).map Task.completed = some doneWitnessStatus.ts :=
  c2_completed_is_last_done [doneWitnessCreate] doneWitnessStatus
    (taskOfCreate doneWitnessCreate) rfl rfl (by decide)

/-- C2 counterexample: after create, `done` at `"t1"`, `done` at `"t2"`, the
reconstructed `completed` is `"t2"` (the *last* done event's timestamp), not
`"t1"` (the first one's) as the claim states. -/
theorem c2_counterexample :
    (dictGet (compute_state c2Events) (some "a")).map Task.completed
        = some (some "t2") ∧
    (dictGet (compute_state c2Events) (some "a")).map Task.completed
        ≠ some (some "t1") := by
  refine ⟨by decide, by decide⟩

/-- C3: a `done` status event followed by a reopening `open` status event for
the same known id leaves the task with status `"open"` while `completed`
still holds the done event's timestamp (reopen does not clear it). -/
theorem c3_reopen_preserves_completed (m : TaskMap) (t : Task) (e1 e2 : Event)
    (h1 : e1.type_ = some EVENT_STATUS) (h2 : e1.status = some "done")
    (h3 : e2.type_ = some EVENT_STATUS) (h4 : e2.status = some "open")
    (h5 : e2.id = e1.id) (hget : dictGet m e1.id = some t) :
    (dictGet (applyEvent (applyEvent m e1) e2) e1.id).map Task.status
        = some (some "open") ∧
    (dictGet (applyEvent (applyEvent m e1) e2) e1.id).map Task.completed
        = some e1.ts := by
  have s1 := applyEvent_status_some m e1 t h1 hget
  have g1 : dictGet (applyEvent m e1) e2.id =
      some { t with
             status := e1.status
             updated := e1.ts
             completed := if e1.status = some "done" then e1.ts else t.completed } := by
    rw [s1, h5, dictGet_dictSet_self]
  have s2 := applyEvent_status_some (applyEvent m e1) e2 _ h3 g1
  rw [s2, h5, dictGet_dictSet_self]
  refine ⟨by simp [h4], by simp [h2, h4]⟩

/-- C3 witness: create, done at `"t1"`, reopen at `"t2"`; status is open and
`completed` is still `"t1"`. -/
theorem c3_witness :
    (dictGet (applyEvent (applyEvent (compute_state [reopenCreate]) reopenDone)
      reopenOpen) reopenDone.id).map Task.status = some (some "open") ∧
    (dictGet (applyEvent (applyEvent (compute_state [reopenCreate]) reopenDone)
      reopenOpen) reopenDone.id).map Task.completed = some reopenDone.ts :=
  c3_reopen_preserves_completed (compute_state [reopenCreate])
    (taskOfCreate reopenCreate) reopenDone reopenOpen rfl rfl rfl rfl rfl
    (by decide)

/-- C5: a `status`, `dep`, `block` or `update` event whose id is not a key of
the accumulated task map is silently dropped: the replay step returns the
task map unchanged (and, being a total function, raises no error). -/
theorem c5_unknown_id_inert (m : TaskMap) (e : Event)
    (htype : e.type_ = some EVENT_STATUS ∨ e.type_ = some EVENT_DEP ∨
      e.type_ = some EVENT_BLOCK ∨ e.type_ = some EVENT_UPDATE)
    (hget : dictGet m e.id = none) :
    applyEvent m e = m := by
  rcases htype with h | h | h | h
  · rw [applyEvent_status _ _ h, hget]
  · rw [applyEvent_dep _ _ h, hget]
  · rw [applyEvent_block _ _ h, hget]
  · rw [applyEvent_update _ _ h, hget]

/-- C5 witness: a `status` event for an id absent from an empty map leaves
the map unchanged. -/
theorem c5_witness :
    applyEvent []
      ({ id := some "x", ts := some "t", type_ := some EVENT_STATUS,
         status := some "done" } : Event) = [] :=
  c5_unknown_id_inert [] _ (Or.inl rfl) rfl

/-- C4: replaying the same dep-add event twice leaves the target task's
`deps` as after one application; a dep-remove for an id absent from the set
leaves `deps` unchanged; and the same idempotence / no-op-removal hold for
block-add / block-remove on `blocks`. -/
theorem c4_set_ops (m : TaskMap) :
    (∀ e : Event, e.type_ = some EVENT_DEP → e.action = some "add" →
      (dictGet (applyEvent (applyEvent m e) e) e.id).map Task.deps
        = (dictGet (applyEvent m e) e.id).map Task.deps) ∧
    (∀ e : Event, e.type_ = some EVENT_DEP → e.action = some "remove" →
      (∀ t, dictGet m e.id = some t → e.dep ∉ t.deps) →
      (dictGet (applyEvent m e) e.id).map Task.deps
        = (dictGet m e.id).map Task.deps) ∧
    (∀ e : Event, e.type_ = some EVENT_BLOCK → e.action = some "add" →
      (dictGet (applyEvent (applyEvent m e) e) e.id).map Task.blocks
        = (dictGet (applyEvent m e) e.id).map Task.blocks) ∧
    (∀ e : Event, e.type_ = some EVENT_BLOCK → e.action = some "remove" →
      (∀ t, dictGet m e.id = some t → e.blocksRef ∉ t.blocks) →
      (dictGet (applyEvent m e) e.id).map Task.blocks
        = (dictGet m e.id).map Task.blocks) := by
  refine ⟨?_, ?_, ?_, ?_⟩
  · intro e h ha
    cases hget : dictGet m e.id with
    | none =>
      have hm : applyEvent m e = m := by rw [applyEvent_dep _ _ h, hget]
      rw [hm, hm]
    | some t =>
      have g1 : dictGet (applyEvent m e) e.id =
          some { t with
                 deps :=
                   if e.action.getD "add" = "add" ∧ e.dep ∉ t.deps then t.deps ++ [e.dep]
                   else if e.action.getD "add" = "remove" ∧ e.dep ∈ t.deps then t.deps.erase e.dep
                   else t.deps
                 updated := e.ts } := by
        rw [applyEvent_dep_some m e t h hget, dictGet_dictSet_self]
      rw [applyEvent_dep_some _ e _ h g1, dictGet_dictSet_self, g1]
      by_cases hd : e.dep ∈ t.deps
      · simp [ha, hd]
      · simp [ha, hd]
  · intro e h ha hnot
    cases hget : dictGet m e.id with
    | none =>
      have hm : applyEvent m e = m := by rw [applyEvent_dep _ _ h, hget]
      rw [hm, hget]
    | some t =>
      have hd := hnot t hget
      rw [applyEvent_dep_some m e t h hget, dictGet_dictSet_self]
      simp [ha, hd]
  · intro e h ha
    cases hget : dictGet m e.id with
    | none =>
      have hm : applyEvent m e = m := by rw [applyEvent_block _ _ h, hget]
      rw [hm, hm]
    | some t =>
      have g1 : dictGet (applyEvent m e) e.id =
          some { t with
                 blocks :=
                   if e.action.getD "add" = "add" ∧ e.blocksRef ∉ t.blocks then t.blocks ++ [e.blocksRef]
                   else if e.action.getD "add" = "remove" ∧ e.blocksRef ∈ t.blocks then t.blocks.erase e.blocksRef
                   else t.blocks
                 updated := e.ts } := by
        rw [applyEvent_block_some m e t h hget, dictGet_dictSet_self]
      rw [applyEvent_block_some _ e _ h g1, dictGet_dictSet_self, g1]
      by_cases hd : e.blocksRef ∈ t.blocks
      · simp [ha, hd]
      · simp [ha, hd]
  · intro e h ha hnot
    cases hget : dictGet m e.id with
    | none =>
      have hm : applyEvent m e = m := by rw [applyEvent_block _ _ h, hget]
      rw [hm, hget]
    | some t =>
      have hd := hnot t hget
      rw [applyEvent_block_some m e t h hget, dictGet_dictSet_self]
      simp [ha, hd]

/-- C4 witness: the four parts applied to a concrete one-task map with a
concrete add event (applied twice), an absent-dep remove, and their block
counterparts. -/
theorem c4_witness :
    ((dictGet (applyEvent (applyEvent c4Map c4DepAdd) c4DepAdd) c4DepAdd.id).map Task.deps
      = (dictGet (applyEvent c4Map c4DepAdd) c4DepAdd.id).map Task.deps) ∧
    ((dictGet (applyEvent c4Map c4DepRemove) c4DepRemove.id).map Task.deps
      = (dictGet c4Map c4DepRemove.id).map Task.deps) ∧
    ((dictGet (applyEvent (applyEvent c4Map c4BlockAdd) c4BlockAdd) c4BlockAdd.id).map Task.blocks
      = (dictGet (applyEvent c4Map c4BlockAdd) c4BlockAdd.id).map Task.blocks) ∧
    ((dictGet (applyEvent c4Map c4BlockRemove) c4BlockRemove.id).map Task.blocks
      = (dictGet c4Map c4BlockRemove.id).map Task.blocks) := by
  have hrem : ∀ t, dictGet c4Map c4DepRemove.id = some t → c4DepRemove.dep ∉ t.deps := by
    intro t ht
    have hk : dictGet c4Map c4DepRemove.id = some c4WTask := by decide
    rw [hk] at ht
    cases ht
    decide
  have hbrem : ∀ t, dictGet c4Map c4BlockRemove.id = some t → c4BlockRemove.blocksRef ∉ t.blocks := by
    intro t ht
    have hk : dictGet c4Map c4BlockRemove.id = some c4WTask := by decide
    rw [hk] at ht
    cases ht
    decide
  exact ⟨(c4_set_ops c4Map).1 c4DepAdd rfl rfl,
    (c4_set_ops c4Map).2.1 c4DepRemove rfl rfl hrem,
    (c4_set_ops c4Map).2.2.1 c4BlockAdd rfl rfl,
    (c4_set_ops c4Map).2.2.2 c4BlockRemove rfl rfl hbrem⟩

/-- C8: a `create` event whose id already exists in the task map silently
overwrites that entry wholesale with the fresh record built from the later
create event's fields alone (`taskOfCreate`, no merging of prior fields),
leaving every other key's entry and the map's size unchanged. -/
theorem c8_create_overwrites (m : TaskMap) (e : Event)
    (htype : e.type_ = some EVENT_CREATE) (hex : dictContains m e.id = true) :
    dictGet (applyEvent m e) e.id = some (taskOfCreate e) ∧
    (∀ k, k ≠ e.id → dictGet (applyEvent m e) k = dictGet m k) ∧
    (applyEvent m e).length = m.length := by
  rw [applyEvent_create m e htype]
  exact ⟨dictGet_dictSet_self m e.id _,
    fun k hk => dictGet_dictSet_ne m e.id k _ hk,
    length_dictSet_of_contains m e.id _ hex⟩

/-- C8 witness: two creates with the same id; after the second, the entry is
exactly the record of the second create, an unrelated key is unchanged, and
the map size is unchanged. -/
theorem c8_witness :
    dictGet (applyEvent (compute_state [c8First]) c8Second) c8Second.id
        = some (taskOfCreate c8Second) ∧
    dictGet (applyEvent (compute_state [c8First]) c8Second) (some "z")
        = dictGet (compute_state [c8First]) (some "z") ∧
    (applyEvent (compute_state [c8First]) c8Second).length
        = (compute_state [c8First]).length :=
  ⟨(c8_create_overwrites (compute_state [c8First]) c8Second rfl (by decide)).1,
    (c8_create_overwrites (compute_state [c8First]) c8Second rfl (by decide)).2.1
      (some "z") (by decide),
    (c8_create_overwrites (compute_state [c8First]) c8Second rfl (by decide)).2.2⟩

/-- C10: a create event may carry an explicit `"status"` field: replaying a
create with status `"done"` yields a task whose status is `"done"` with no
`completed` timestamp; the ready computation's dependency check looks only at
the status, so a dependency on such a task counts as satisfied; and in the
concrete two-task scenario the dependent task is ready. -/
theorem c10_create_done_status :
    (∀ (m : TaskMap) (e : Event), e.type_ = some EVENT_CREATE →
      e.status = some "done" →
      (dictGet (applyEvent m e) e.id).map Task.status = some (some "done") ∧
      (dictGet (applyEvent m e) e.id).map Task.completed = some none) ∧
    (∀ (m : TaskMap) (d : Option String) (u : Task), dictGet m d = some u →
      u.status = some "done" → depSatisfied m d = true) ∧
    (∃ tb, dictGet (compute_state [c10CreateDone, c10CreateDep]) (some "b") = some tb ∧
      tb ∈ get_ready_tasks (compute_state [c10CreateDone, c10CreateDep])) := by
  refine ⟨?_, ?_, ?_⟩
  · intro m e h hs
    rw [applyEvent_create m e h, dictGet_dictSet_self]
    exact ⟨by simp [taskOfCreate, hs], by simp [taskOfCreate]⟩
  · intro m d u hget hs
    unfold depSatisfied
    rw [hget]
    simp [hs]
  · exact ⟨taskOfCreate c10CreateDep, by decide, by decide⟩

/-- C10 witness: parts one and two of the theorem applied to the concrete
done-at-birth create event. -/
theorem c10_witness :
    ((dictGet (applyEvent [] c10CreateDone) c10CreateDone.id).map Task.status
        = some (some "done") ∧
     (dictGet (applyEvent [] c10CreateDone) c10CreateDone.id).map Task.completed
        = some none) ∧
    depSatisfied (compute_state [c10CreateDone]) (some "a") = true :=
  ⟨c10_create_done_status.1 [] c10CreateDone rfl rfl,
    c10_create_done_status.2.1 (compute_state [c10CreateDone]) (some "a")
      (taskOfCreate c10CreateDone) (by decide) rfl⟩

/-- C7: `cmd_done` and `cmd_update` validate against the fully reconstructed
state before appending: an unknown id yields the `not_found` error document
(non-zero exit) with the log unchanged, and an update supplying none of
title/notes/labels yields `no_changes` with the log unchanged. -/
theorem c7_write_validation (log : List Event) (id ts : String)
    (title notes : Option String) (labels : Option (List String)) :
    (dictContains (compute_state log) (some id) = false →
      cmd_done log id ts = (log, Except.error "not_found") ∧
      cmd_update log id ts title notes labels = (log, Except.error "not_found")) ∧
    (dictContains (compute_state log) (some id) = true →
      truthyStr title = false → truthyStr notes = false → truthyList labels = false →
      cmd_update log id ts title notes labels = (log, Except.error "no_changes")) := by
  constructor
  · intro h
    constructor
    · simp [cmd_done, h]
    · simp [cmd_update, h]
  · intro h ht hn hl
    simp [cmd_update, h, ht, hn, hl]

/-- C7 witness: `done` and `update` on an empty log fail with `not_found`
and append nothing; an argument-less `update` for an existing task fails
with `no_changes` and appends nothing. -/
theorem c7_witness :
    (cmd_done [] "a" "t" = ([], Except.error "not_found") ∧
     cmd_update [] "a" "t" none none none = ([], Except.error "not_found")) ∧
    cmd_update [c7Create] "a" "t" none none none
        = ([c7Create], Except.error "no_changes") :=
  ⟨(c7_write_validation [] "a" "t" none none none).1 rfl,
    (c7_write_validation [c7Create] "a" "t" none none none).2 (by decide) rfl rfl rfl⟩

/-- The loop of `build_dependency_graph` expressed as a fold over arbitrary
initial accumulators. -/
theorem foldl_graphStep (ts : List Task) (ns : List GNode) (es : List GEdge) :
    ts.foldl graphStep (ns, es) =
      (ns ++ ts.map (fun t => ({ id := t.id, title := t.title, status := t.status } : GNode)),
       es ++ ts.flatMap (fun t =>
         t.deps.map (fun d => ({ from_ := d, to_ := t.id, etype := "depends_on" } : GEdge)) ++
         t.blocks.map (fun b => ({ from_ := t.id, to_ := b, etype := "blocks" } : GEdge)))) := by
  induction ts generalizing ns es with
  | nil => simp
  | cons t rest ih =>
    simp only [List.foldl_cons, graphStep]
    rw [ih]
    simp

/-- C9: the graph projection emits exactly one node (id, title, status) per
task of the map, exactly one `depends_on` edge per entry of each task's
`deps` list directed from the dependency id to the dependent task's id, and
exactly one `blocks` edge per entry of each task's `blocks` list directed
from the task's id to the blocked target id. -/
theorem c9_graph_projection (tasks : TaskMap) :
    (build_dependency_graph tasks).nodes
        = (values tasks).map
            (fun t => ({ id := t.id, title := t.title, status := t.status } : GNode)) ∧
    (build_dependency_graph tasks).edges
        = (values tasks).flatMap (fun t =>
            t.deps.map (fun d => ({ from_ := d, to_ := t.id, etype := "depends_on" } : GEdge)) ++
            t.blocks.map (fun b => ({ from_ := t.id, to_ := b, etype := "blocks" } : GEdge))) := by
  unfold build_dependency_graph
  rw [foldl_graphStep]
  exact ⟨rfl, rfl⟩

/-! ## Stability of the loader's sort -/

theorem filter_orderedInsert {α : Type} (key : α → String) (k : String)
    (e : α) (l : List α) :
    (List.orderedInsert (fun a b => key a ≤ key b) e l).filter (fun x => key x == k)
      = if key e == k then e :: l.filter (fun x => key x == k)
        else l.filter (fun x => key x == k) := by
  induction l with
  | nil =>
    by_cases he : (key e == k) = true <;>
      simp [List.orderedInsert, List.filter, he]
  | cons x xs ih =>
    by_cases hle : key e ≤ key x
    · have hstep : List.orderedInsert (fun a b => key a ≤ key b) e (x :: xs)
          = e :: x :: xs := by simp [List.orderedInsert, hle]
      rw [hstep]
      by_cases he : (key e == k) = true <;> simp [List.filter, he]
    · have hstep : List.orderedInsert (fun a b => key a ≤ key b) e (x :: xs)
          = x :: List.orderedInsert (fun a b => key a ≤ key b) e xs := by
        simp [List.orderedInsert, hle]
      rw [hstep]
      simp only [List.filter_cons, ih]
      by_cases hx : (key x == k) = true <;> by_cases he : (key e == k) = true
      · exfalso
        refine hle ?_
        rw [beq_iff_eq] at he hx
        rw [he, hx]
      · simp [hx, he]
      · simp [hx, he]
      · simp [hx, he]

theorem filter_insertionSortKey {α : Type} (key : α → String) (k : String)
    (l : List α) :
    (List.insertionSort (fun a b => key a ≤ key b) l).filter (fun x => key x == k)
      = l.filter (fun x => key x == k) := by
  induction l with
  | nil => rfl
  | cons x xs ih =>
    simp only [List.insertionSort]
    rw [filter_orderedInsert, ih]
    by_cases hx : (key x == k) = true <;> simp [List.filter, hx]

theorem pairwise_pySorted {α : Type} (key : α → String) (l : List α) :
    List.Pairwise (fun a b => key a ≤ key b) (pySorted key l) := by
  haveI : IsTotal α (fun a b => key a ≤ key b) :=
    ⟨fun a b => le_total (key a) (key b)⟩
  haveI : IsTrans α (fun a b => key a ≤ key b) :=
    ⟨fun a b c hab hbc => le_trans hab hbc⟩
  exact List.sorted_insertionSort _ l

/-- C6: `load_all_events` reads the partitions in lexicographic name order,
parses each line independently, drops lines that fail to parse (and blank
lines) without failing the whole load, and returns the collected events
sorted by the `ts` key ascending; the sort is stable — for every key value,
the sorted output lists the events of the lexicographic-order parse stream
with that key in their original input order, so equal timestamps keep log
order. -/
theorem c6_load_all_events (parse : String → Option Event)
    (files : List (String × List String)) :
    List.Pairwise (fun a b => tsKey a ≤ tsKey b) (load_all_events parse files) ∧
    ∀ k : String,
      (load_all_events parse files).filter (fun e => tsKey e == k)
        = ((pySorted (fun f => f.1) files).flatMap
            (fun f => parseLines parse f.2)).filter (fun e => tsKey e == k) :=
  ⟨pairwise_pySorted tsKey _, fun k => filter_insertionSortKey tsKey k _⟩

/-- C1 witness: the amended characterization applied to a concrete one-task
map: the single open, dep-free, unblocked task is ready, hence in the map
with status open. -/
theorem c1_witness :
    taskOfCreate c7Create ∈ values (compute_state [c7Create]) ∧
    (taskOfCreate c7Create).status = some "open" :=
  have h := (c1_ready_characterization [c7Create] (taskOfCreate c7Create)).mp (by decide)
  ⟨h.1, h.2.1⟩

/-- C6 witness: the loader theorem applied to two concrete partition files
given out of name order, with a parser that accepts a fixed set of lines. -/
theorem c6_witness :
    List.Pairwise (fun a b => tsKey a ≤ tsKey b)
      (load_all_events (fun _ => none) [("2025-01-02", ["x"]), ("2025-01-01", [""])]) ∧
    (load_all_events (fun _ => none) [("2025-01-02", ["x"]), ("2025-01-01", [""])]).filter
        (fun e => tsKey e == "")
      = ((pySorted (fun f => f.1) [("2025-01-02", ["x"]), ("2025-01-01", [""])]).flatMap
          (fun f => parseLines (fun _ => none) f.2)).filter (fun e => tsKey e == "") :=
  ⟨(c6_load_all_events (fun _ => none) [("2025-01-02", ["x"]), ("2025-01-01", [""])]).1,
    (c6_load_all_events (fun _ => none) [("2025-01-02", ["x"]), ("2025-01-01", [""])]).2 ""⟩

/-- C9 witness: the projection theorem applied to the concrete one-task map
of the self-blocking task (one node, one `blocks` edge). -/
theorem c9_witness :
    (build_dependency_graph (compute_state [selfBlockEvent])).nodes
        = (values (compute_state [selfBlockEvent])).map
            (fun t => ({ id := t.id, title := t.title, status := t.status } : GNode)) ∧
    (build_dependency_graph (compute_state [selfBlockEvent])).edges
        = (values (compute_state [selfBlockEvent])).flatMap (fun t =>
            t.deps.map (fun d => ({ from_ := d, to_ := t.id, etype := "depends_on" } : GEdge)) ++
            t.blocks.map (fun b => ({ from_ := t.id, to_ := b, etype := "blocks" } : GEdge))) :=
  c9_graph_projection (compute_state [selfBlockEvent])

end Tlog
